import Mathlib

/-!
Verification development for the `foundation-model-stack` adapter repository.

The repository contains three Python source files:

* `tests/models/hf/test_llama_hf.py` — the weight layout translator
  `_oss_hf_model`, which copies a native model's tensors into a reference
  ("OSS HF") model and applies an interleaving permutation to the rows of the
  Q and K projection weights:
  `q.view(nheads, -1, 2, q.size(1)).transpose(1, 2).reshape(*q.size())`.
* `fms/models/hf/llama/configuration_llama_hf.py` — `LLaMAHFConfig` with its
  `__init__` and the `from_fms_config` conversion
  (`config_dict["pad_token_id"] = config_dict.pop("pad_id")`).
* `scripts/inference.py` — the `pad_prompt` helper.

This file embeds those operations shallowly.  Weight matrices are modelled as
lists of rows (the row type is an abstract `R`; the permutation moves whole
rows, the trailing input-dimension axis is untouched).  Python dictionaries
are modelled as ordered association lists, fallible operations return
`Except`.
-/

namespace FMSSpec

/-- Error taxonomy of the weight layout translator, from the specification's
error-handling design: `ShapeMismatch` (tensor dimensions incompatible with
the declared head count — in the code this surfaces as the runtime error of
`Tensor.view` when `-1` cannot be inferred), `LayerCountMismatch` (source and
target disagree on the number of layers) and `MissingTensor` (an expected
tensor is absent). -/
inductive TranslateError where
  | ShapeMismatch
  | LayerCountMismatch
  | MissingTensor
  deriving DecidableEq

/-!
## Row index maps of the Q/K permutation

`q.view(nheads, -1, 2, in_dim)` reinterprets the row (output) dimension of a
`[out_dim, in_dim]` weight as `[nheads, half, 2]` with
`half = out_dim / (nheads * 2)` (`head_dim = 2 * half`); a row index `i`
decomposes as `i = head_dim * h + 2 * a + b` with `h < nheads`, `a < half`,
`b < 2`.  `transpose(1, 2)` swaps the `half` and `2` axes, and
`reshape(out_dim, in_dim)` re-linearises in the transposed order
`[nheads, 2, half]`, so output row `g = head_dim * h + half * b + a` reads
input row `head_dim * h + 2 * a + b`.
-/

/-- Row index read by output row `g` of the reshape–transpose–flatten: `g`
decomposes in the transposed layout `[nheads, 2, half]` as
`g = 2 * half * h + half * b + a`, and the value comes from input row
`2 * half * h + 2 * a + b` of the `[nheads, half, 2]` layout. -/
def srcRowIndex (half g : Nat) : Nat :=
  2 * half * (g / (2 * half)) + 2 * (g % (2 * half) % half) + g % (2 * half) / half

/-- Destination row of input row `i` under the reshape–transpose–flatten:
`i` decomposes in the `[nheads, half, 2]` layout as
`i = 2 * half * h + 2 * a + b`, and the row is written to output row
`2 * half * h + half * b + a` of the transposed `[nheads, 2, half]` layout.
This is the inverse of `srcRowIndex`. -/
def dstRowIndex (half i : Nat) : Nat :=
  2 * half * (i / (2 * half)) + half * (i % (2 * half) % 2) + i % (2 * half) / 2

theorem dstRowIndex_srcRowIndex (half : Nat) (hhalf : 0 < half) (g : Nat) :
    dstRowIndex half (srcRowIndex half g) = g := by
  unfold srcRowIndex dstRowIndex
  set hd := 2 * half with hhd
  have hhdpos : 0 < hd := by omega
  set h := g / hd with hh
  set r := g % hd with hr
  have hrlt : r < hd := Nat.mod_lt _ hhdpos
  set a := r % half with ha
  set b := r / half with hb
  have halt : a < half := Nat.mod_lt _ hhalf
  have hblt : b < 2 := by
    rw [hb]
    exact (Nat.div_lt_iff_lt_mul hhalf).2 (by omega)
  have hab : 2 * a + b < hd := by omega
  have hdiv : (hd * h + (2 * a + b)) / hd = h := by
    rw [Nat.mul_add_div hhdpos, Nat.div_eq_of_lt hab, Nat.add_zero]
  have hmod : (hd * h + (2 * a + b)) % hd = 2 * a + b := by
    rw [Nat.mul_add_mod, Nat.mod_eq_of_lt hab]
  have harr : hd * h + 2 * a + b = hd * h + (2 * a + b) := by omega
  rw [harr, hdiv, hmod]
  have h2 : (2 * a + b) % 2 = b := by
    rw [Nat.mul_add_mod, Nat.mod_eq_of_lt hblt]
  have h3 : (2 * a + b) / 2 = a := by
    rw [Nat.mul_add_div (by omega), Nat.div_eq_of_lt hblt, Nat.add_zero]
  rw [h2, h3]
  have hba : half * b + a = r := by
    rw [hb, ha]
    exact Nat.div_add_mod r half
  have hgr : hd * h + r = g := by
    rw [hh, hr]
    exact Nat.div_add_mod g hd
  omega

theorem srcRowIndex_dstRowIndex (half : Nat) (hhalf : 0 < half) (i : Nat) :
    srcRowIndex half (dstRowIndex half i) = i := by
  unfold srcRowIndex dstRowIndex
  set hd := 2 * half with hhd
  have hhdpos : 0 < hd := by omega
  set h := i / hd with hh
  set r := i % hd with hr
  have hrlt : r < hd := Nat.mod_lt _ hhdpos
  set a := r / 2 with ha
  set b := r % 2 with hb
  have hblt : b < 2 := Nat.mod_lt _ (by omega)
  have halt : a < half := by
    rw [ha]
    exact (Nat.div_lt_iff_lt_mul (by omega)).2 (by omega)
  have hble : half * b ≤ half := by
    rcases (show b = 0 ∨ b = 1 by omega) with hb0 | hb1
    · rw [hb0, Nat.mul_zero]; omega
    · rw [hb1, Nat.mul_one]
  have hab : half * b + a < hd := by omega
  have hdiv : (hd * h + (half * b + a)) / hd = h := by
    rw [Nat.mul_add_div hhdpos, Nat.div_eq_of_lt hab, Nat.add_zero]
  have hmod : (hd * h + (half * b + a)) % hd = half * b + a := by
    rw [Nat.mul_add_mod, Nat.mod_eq_of_lt hab]
  have harr : hd * h + half * b + a = hd * h + (half * b + a) := by omega
  rw [harr, hdiv, hmod]
  have h2 : (half * b + a) % half = a := by
    rw [Nat.mul_add_mod, Nat.mod_eq_of_lt halt]
  have h3 : (half * b + a) / half = b := by
    rw [Nat.mul_add_div hhalf, Nat.div_eq_of_lt halt, Nat.add_zero]
  rw [h2, h3]
  have hba : 2 * a + b = r := by
    rw [ha, hb]
    exact Nat.div_add_mod r 2
  have hir : hd * h + r = i := by
    rw [hh, hr]
    exact Nat.div_add_mod i hd
  omega

theorem srcRowIndex_lt (half n g : Nat) (hhalf : 0 < half)
    (hdvd : 2 * half ∣ n) (hg : g < n) : srcRowIndex half g < n := by
  unfold srcRowIndex
  set hd := 2 * half with hhd
  have hhdpos : 0 < hd := by omega
  have hdivlt : g / hd < n / hd := Nat.div_lt_div_of_lt_of_dvd hdvd hg
  have hmul : hd * (n / hd) = n := Nat.mul_div_cancel' hdvd
  have hsucc : hd * (g / hd + 1) ≤ hd * (n / hd) :=
    Nat.mul_le_mul_left _ hdivlt
  have hrlt : g % hd < hd := Nat.mod_lt _ hhdpos
  have halt : g % hd % half < half := Nat.mod_lt _ hhalf
  have hblt : g % hd / half < 2 :=
    (Nat.div_lt_iff_lt_mul hhalf).2 (by omega)
  have hexp : hd * (g / hd + 1) = hd * (g / hd) + hd := by ring
  omega

theorem dstRowIndex_lt (half n i : Nat) (hhalf : 0 < half)
    (hdvd : 2 * half ∣ n) (hi : i < n) : dstRowIndex half i < n := by
  unfold dstRowIndex
  set hd := 2 * half with hhd
  have hhdpos : 0 < hd := by omega
  have hdivlt : i / hd < n / hd := Nat.div_lt_div_of_lt_of_dvd hdvd hi
  have hmul : hd * (n / hd) = n := Nat.mul_div_cancel' hdvd
  have hsucc : hd * (i / hd + 1) ≤ hd * (n / hd) :=
    Nat.mul_le_mul_left _ hdivlt
  have hrlt : i % hd < hd := Nat.mod_lt _ hhdpos
  have hblt : i % hd % 2 < 2 := Nat.mod_lt _ (by omega)
  have halt : i % hd / 2 < half :=
    (Nat.div_lt_iff_lt_mul (by omega)).2 (by omega)
  have hble : half * (i % hd % 2) ≤ half := by
    rcases (show i % hd % 2 = 0 ∨ i % hd % 2 = 1 by omega) with hb0 | hb1
    · rw [hb0, Nat.mul_zero]; omega
    · rw [hb1, Nat.mul_one]
  have hexp : hd * (i / hd + 1) = hd * (i / hd) + hd := by ring
  omega

/-- Under the guard of `permuteRows` the inferred `half` is positive and
`2 * half` divides the number of rows. -/
theorem half_spec (nheads n : Nat) (h1 : 0 < nheads) (h2 : 0 < n)
    (h3 : n % (nheads * 2) = 0) :
    0 < n / (nheads * 2) ∧ 2 * (n / (nheads * 2)) ∣ n := by
  have hdvd : nheads * 2 ∣ n := Nat.dvd_of_mod_eq_zero h3
  have hmul : nheads * 2 * (n / (nheads * 2)) = n := Nat.mul_div_cancel' hdvd
  constructor
  · rcases Nat.eq_zero_or_pos (n / (nheads * 2)) with hz | hp
    · rw [hz, Nat.mul_zero] at hmul; omega
    · exact hp
  · refine ⟨nheads, ?_⟩
    have hr : 2 * (n / (nheads * 2)) * nheads = nheads * 2 * (n / (nheads * 2)) := by
      ring
    omega

variable {R : Type}

/-- Row-level embedding of the Q/K adjustment in `_oss_hf_model`
(`test_llama_hf.py`, lines 97–111):

`q.view(nheads, -1, 2, q.size(1)).transpose(1, 2).reshape(*q.size())`.

The weight is a list of rows `w` (`w.length` is the output dimension).
`view` requires the inferred `-1` dimension to exist: the tensor must be
non-empty and the row count divisible by `nheads * 2`, otherwise the runtime
raises a shape error; rows then move whole, output row `g` reading input row
`srcRowIndex half g` with `half = w.length / (nheads * 2)`. -/
def permuteRows (nheads : Nat) (w : List R) : Except TranslateError (List R) :=
  if h : 0 < nheads ∧ 0 < w.length ∧ w.length % (nheads * 2) = 0 then
    Except.ok (List.ofFn (fun g : Fin w.length =>
      w.get ⟨srcRowIndex (w.length / (nheads * 2)) g.val,
        srcRowIndex_lt _ _ _ (half_spec nheads w.length h.1 h.2.1 h.2.2).1
          (half_spec nheads w.length h.1 h.2.1 h.2.2).2 g.isLt⟩))
  else
    Except.error TranslateError.ShapeMismatch

/-- Modelled from the spec: the inverse-direction translation step
(`translate_back`) converts Q/K rows from the "interleaved-half" rotary
layout back to the "adjacent-pair" layout.  It is not present in `src/`
(the test only converts native → reference); following the specification's
description it views the row dimension as `[nheads, 2, half]`, swaps the
last two axes and flattens, i.e. output row `i` reads input row
`dstRowIndex half i` — the inverse of `permuteRows`. -/
def permuteRowsBack (nheads : Nat) (w : List R) : Except TranslateError (List R) :=
  if h : 0 < nheads ∧ 0 < w.length ∧ w.length % (nheads * 2) = 0 then
    Except.ok (List.ofFn (fun g : Fin w.length =>
      w.get ⟨dstRowIndex (w.length / (nheads * 2)) g.val,
        dstRowIndex_lt _ _ _ (half_spec nheads w.length h.1 h.2.1 h.2.2).1
          (half_spec nheads w.length h.1 h.2.1 h.2.2).2 g.isLt⟩))
  else
    Except.error TranslateError.ShapeMismatch

theorem permuteRows_ok_spec (nheads : Nat) (w w' : List R)
    (h : permuteRows nheads w = Except.ok w') :
    (0 < nheads ∧ 0 < w.length ∧ w.length % (nheads * 2) = 0) ∧
    w'.length = w.length ∧
    ∀ g : Nat, g < w.length →
      w'[g]? = w[srcRowIndex (w.length / (nheads * 2)) g]? := by
  unfold permuteRows at h
  split at h
  next hguard =>
    obtain ⟨hhalf, hdvd⟩ := half_spec nheads w.length hguard.1 hguard.2.1 hguard.2.2
    injection h with h
    subst h
    refine ⟨hguard, List.length_ofFn _, ?_⟩
    intro g hg
    rw [List.getElem?_ofFn]
    unfold List.ofFnNthVal
    rw [dif_pos hg,
      List.getElem?_eq_getElem (srcRowIndex_lt _ _ _ hhalf hdvd hg)]
    rfl
  next => exact absurd h (by simp)

theorem permuteRowsBack_ok_spec (nheads : Nat) (w w' : List R)
    (h : permuteRowsBack nheads w = Except.ok w') :
    (0 < nheads ∧ 0 < w.length ∧ w.length % (nheads * 2) = 0) ∧
    w'.length = w.length ∧
    ∀ g : Nat, g < w.length →
      w'[g]? = w[dstRowIndex (w.length / (nheads * 2)) g]? := by
  unfold permuteRowsBack at h
  split at h
  next hguard =>
    obtain ⟨hhalf, hdvd⟩ := half_spec nheads w.length hguard.1 hguard.2.1 hguard.2.2
    injection h with h
    subst h
    refine ⟨hguard, List.length_ofFn _, ?_⟩
    intro g hg
    rw [List.getElem?_ofFn]
    unfold List.ofFnNthVal
    rw [dif_pos hg,
      List.getElem?_eq_getElem (dstRowIndex_lt _ _ _ hhalf hdvd hg)]
    rfl
  next => exact absurd h (by simp)

theorem permuteRows_of_guard (nheads : Nat) (w : List R)
    (hguard : 0 < nheads ∧ 0 < w.length ∧ w.length % (nheads * 2) = 0) :
    ∃ w', permuteRows nheads w = Except.ok w' := by
  unfold permuteRows
  rw [dif_pos hguard]
  exact ⟨_, rfl⟩

theorem permuteRowsBack_of_guard (nheads : Nat) (w : List R)
    (hguard : 0 < nheads ∧ 0 < w.length ∧ w.length % (nheads * 2) = 0) :
    ∃ w', permuteRowsBack nheads w = Except.ok w' := by
  unfold permuteRowsBack
  rw [dif_pos hguard]
  exact ⟨_, rfl⟩

theorem permuteRows_error (nheads : Nat) (w : List R)
    (h : ¬(0 < nheads ∧ 0 < w.length ∧ w.length % (nheads * 2) = 0)) :
    permuteRows nheads w = Except.error TranslateError.ShapeMismatch := by
  unfold permuteRows
  rw [dif_neg h]

/-- The only error `permuteRows` produces is `ShapeMismatch`. -/
theorem permuteRows_error_eq (nheads : Nat) (w : List R) (e : TranslateError)
    (h : permuteRows nheads w = Except.error e) :
    e = TranslateError.ShapeMismatch := by
  unfold permuteRows at h
  split at h
  next => exact absurd h (by simp)
  next =>
    injection h with h
    exact h.symm

/-- The Q/K row permutation preserves the rows up to permutation: the output
is a `List.Perm` rearrangement of the input. -/
theorem permuteRows_perm (nheads : Nat) (w w' : List R)
    (h : permuteRows nheads w = Except.ok w') : w'.Perm w := by
  unfold permuteRows at h
  split at h
  next hguard =>
    obtain ⟨hhalf, hdvd⟩ := half_spec nheads w.length hguard.1 hguard.2.1 hguard.2.2
    injection h with h
    subst h
    have hperm :=
      Equiv.Perm.ofFn_comp_perm
        (⟨fun g : Fin w.length =>
            ⟨srcRowIndex (w.length / (nheads * 2)) g.val,
              srcRowIndex_lt _ _ _ hhalf hdvd g.isLt⟩,
          fun i : Fin w.length =>
            ⟨dstRowIndex (w.length / (nheads * 2)) i.val,
              dstRowIndex_lt _ _ _ hhalf hdvd i.isLt⟩,
          fun g => Fin.ext (dstRowIndex_srcRowIndex _ hhalf g.val),
          fun i => Fin.ext (srcRowIndex_dstRowIndex _ hhalf i.val)⟩ :
          Equiv.Perm (Fin w.length))
        w.get
    rw [List.ofFn_get] at hperm
    exact hperm
  next => exact absurd h (by simp)

/-- Translating and then translating back restores the original rows,
bitwise. -/
theorem permuteRows_roundtrip (nheads : Nat) (w w' : List R)
    (h : permuteRows nheads w = Except.ok w') :
    permuteRowsBack nheads w' = Except.ok w := by
  obtain ⟨hguard, hlen, hget⟩ := permuteRows_ok_spec nheads w w' h
  obtain ⟨hhalf, hdvd⟩ := half_spec nheads w.length hguard.1 hguard.2.1 hguard.2.2
  have hguard' : 0 < nheads ∧ 0 < w'.length ∧ w'.length % (nheads * 2) = 0 := by
    refine ⟨hguard.1, ?_, ?_⟩
    · rw [hlen]; exact hguard.2.1
    · rw [hlen]; exact hguard.2.2
  obtain ⟨v, hok⟩ := permuteRowsBack_of_guard nheads w' hguard'
  obtain ⟨_, hlenv, hgetv⟩ := permuteRowsBack_ok_spec nheads w' v hok
  rw [hlen] at hgetv
  have hv : v = w := by
    apply List.ext_getElem?
    intro i
    by_cases hi : i < w.length
    · rw [hgetv i hi, hget (dstRowIndex (w.length / (nheads * 2)) i)
        (dstRowIndex_lt _ _ _ hhalf hdvd hi),
        srcRowIndex_dstRowIndex _ hhalf i]
    · rw [List.getElem?_eq_none (by omega), List.getElem?_eq_none (by omega)]
  rw [hv] at hok
  exact hok

/-!
## Model weights and the layer-by-layer translation

`_oss_hf_model` copies tensors between two per-layer module trees.  The data
model follows the specification's `LayerWeights` / `ModelWeights` records;
each field's doc string names the source attribute it stands for.  2-D
weights are lists of rows, 1-D weights lists of scalars; both live in the
abstract element type `R` (the translator only copies or permutes, so the
element type never matters).
-/

/-- Per-layer weights.  Field ↔ source attribute (native side / OSS side):
`q_weight` = `attn.query.weight` / `self_attn.q_proj.weight`,
`k_weight` = `attn.key.weight` / `self_attn.k_proj.weight`,
`v_weight` = `attn.value.weight` / `self_attn.v_proj.weight`,
`o_weight` = `attn.dense.weight` / `self_attn.o_proj.weight`,
`gate_weight` = `ff_sub_layer.wg.weight` / `mlp.gate_proj.weight`,
`up_weight` = `ff_sub_layer.w1.weight` / `mlp.up_proj.weight`,
`down_weight` = `ff_sub_layer.w2.weight` / `mlp.down_proj.weight`,
`input_norm_weight` = `ln.weight` / `input_layernorm.weight`,
`post_attn_norm_weight` = `ff_ln.weight` / `post_attention_layernorm.weight`. -/
structure LayerWeights (R : Type) where
  q_weight : List R
  k_weight : List R
  v_weight : List R
  o_weight : List R
  gate_weight : List R
  up_weight : List R
  down_weight : List R
  input_norm_weight : List R
  post_attn_norm_weight : List R
  deriving DecidableEq

/-- Whole-model weights: the ordered layers plus
`embedding_weight` (= `embedding.weight` / `model.embed_tokens.weight`),
`rot_emb_freqs` (the rotary frequency buffer `decoder.model.rot_emb.freqs`,
shared by all layers in the native model and installed into each OSS layer's
`rotary_emb.inv_freqs`; modelled once at model level),
`dec_norm_weight` (= `decoder.model.dec_norm.weight` / `model.norm.weight`)
and `output_head_weight` (= `lm_head.weight` on both sides). -/
structure ModelWeights (R : Type) where
  layers : List (LayerWeights R)
  embedding_weight : List R
  rot_emb_freqs : List R
  dec_norm_weight : List R
  output_head_weight : List R
  deriving DecidableEq

/-- One iteration of the layer loop of `_oss_hf_model` (lines 61–113): copy
V, O, gate/up/down and both norm weights unchanged, then permute the rows of
the Q and K projection weights (Q first, then K, as in the source). -/
def translateLayer (nheads : Nat) (L : LayerWeights R) :
    Except TranslateError (LayerWeights R) :=
  match permuteRows nheads L.q_weight with
  | Except.error e => Except.error e
  | Except.ok q =>
    match permuteRows nheads L.k_weight with
    | Except.error e => Except.error e
    | Except.ok k =>
      Except.ok
        { q_weight := q
          k_weight := k
          v_weight := L.v_weight
          o_weight := L.o_weight
          gate_weight := L.gate_weight
          up_weight := L.up_weight
          down_weight := L.down_weight
          input_norm_weight := L.input_norm_weight
          post_attn_norm_weight := L.post_attn_norm_weight }

/-- The layer loop of `_oss_hf_model`, in layer order. -/
def translateLayers (nheads : Nat) :
    List (LayerWeights R) → Except TranslateError (List (LayerWeights R))
  | [] => Except.ok []
  | L :: rest =>
    match translateLayer nheads L with
    | Except.error e => Except.error e
    | Except.ok Lt =>
      match translateLayers nheads rest with
      | Except.error e => Except.error e
      | Except.ok restT => Except.ok (Lt :: restT)

/-- The whole translation `_oss_hf_model` performs: per-layer translation
plus the unchanged copies of the embedding (line 59), the rotary frequency
buffer (lines 75–77), the final decoder norm (line 114) and the output head
(line 115). -/
def translate (nheads : Nat) (src : ModelWeights R) :
    Except TranslateError (ModelWeights R) :=
  match translateLayers nheads src.layers with
  | Except.error e => Except.error e
  | Except.ok layersT =>
    Except.ok
      { layers := layersT
        embedding_weight := src.embedding_weight
        rot_emb_freqs := src.rot_emb_freqs
        dec_norm_weight := src.dec_norm_weight
        output_head_weight := src.output_head_weight }

/-- Modelled from the spec: the inverse-direction layer step of
`translate_back` (not present in `src/`): identical copies, with the inverse
row permutation applied to Q and K. -/
def translateLayerBack (nheads : Nat) (L : LayerWeights R) :
    Except TranslateError (LayerWeights R) :=
  match permuteRowsBack nheads L.q_weight with
  | Except.error e => Except.error e
  | Except.ok q =>
    match permuteRowsBack nheads L.k_weight with
    | Except.error e => Except.error e
    | Except.ok k =>
      Except.ok
        { q_weight := q
          k_weight := k
          v_weight := L.v_weight
          o_weight := L.o_weight
          gate_weight := L.gate_weight
          up_weight := L.up_weight
          down_weight := L.down_weight
          input_norm_weight := L.input_norm_weight
          post_attn_norm_weight := L.post_attn_norm_weight }

/-- Modelled from the spec: `translate_back` layer loop. -/
def translateLayersBack (nheads : Nat) :
    List (LayerWeights R) → Except TranslateError (List (LayerWeights R))
  | [] => Except.ok []
  | L :: rest =>
    match translateLayerBack nheads L with
    | Except.error e => Except.error e
    | Except.ok Lt =>
      match translateLayersBack nheads rest with
      | Except.error e => Except.error e
      | Except.ok restT => Except.ok (Lt :: restT)

/-- Modelled from the spec: `translate_back`, the inverse-direction model
translation (round-trip counterpart of `translate`). -/
def translateBack (nheads : Nat) (src : ModelWeights R) :
    Except TranslateError (ModelWeights R) :=
  match translateLayersBack nheads src.layers with
  | Except.error e => Except.error e
  | Except.ok layersT =>
    Except.ok
      { layers := layersT
        embedding_weight := src.embedding_weight
        rot_emb_freqs := src.rot_emb_freqs
        dec_norm_weight := src.dec_norm_weight
        output_head_weight := src.output_head_weight }

/-- Modelled from the spec: the translator checks that source and target
expect the same number of layers and fails with `LayerCountMismatch`
otherwise.  In `src/` no explicit check exists because the test builds the
target model from the source's own configuration (`hf_config.nlayers`), so
the counts agree by construction; the specification's failure condition is
modelled here with the target's expected layer count as a parameter. -/
def translateTo (nheads targetNLayers : Nat) (src : ModelWeights R) :
    Except TranslateError (ModelWeights R) :=
  if src.layers.length = targetNLayers then translate nheads src
  else Except.error TranslateError.LayerCountMismatch

instance {ε α : Type} [DecidableEq ε] [DecidableEq α] : DecidableEq (Except ε α) := fun x y =>
  match x, y with
  | Except.error a, Except.error b =>
    if h : a = b then isTrue (by rw [h])
    else isFalse (fun hc => h (Except.error.inj hc))
  | Except.error _, Except.ok _ => isFalse (fun hc => Except.noConfusion hc)
  | Except.ok _, Except.error _ => isFalse (fun hc => Except.noConfusion hc)
  | Except.ok a, Except.ok b =>
    if h : a = b then isTrue (by rw [h])
    else isFalse (fun hc => h (Except.ok.inj hc))

/-- The row-index map `dstRowIndex` induced by the transpose is a bijection
of `[0, n)` onto itself whenever `n` rows split evenly into `nheads` heads of
even head dimension. -/
theorem dstRowIndex_bijOn (nheads n : Nat) (h1 : 0 < nheads) (h2 : 0 < n)
    (h3 : n % (nheads * 2) = 0) :
    Set.BijOn (dstRowIndex (n / (nheads * 2))) (Set.Iio n) (Set.Iio n) := by
  obtain ⟨hhalf, hdvd⟩ := half_spec nheads n h1 h2 h3
  have hinv : Set.InvOn (srcRowIndex (n / (nheads * 2)))
      (dstRowIndex (n / (nheads * 2))) (Set.Iio n) (Set.Iio n) := by
    constructor
    · intro i _
      exact srcRowIndex_dstRowIndex _ hhalf i
    · intro g _
      exact dstRowIndex_srcRowIndex _ hhalf g
  refine hinv.bijOn ?_ ?_
  · intro i hi
    exact dstRowIndex_lt _ _ _ hhalf hdvd hi
  · intro g hg
    exact srcRowIndex_lt _ _ _ hhalf hdvd hg

/-- Likewise `srcRowIndex` (the inverse direction) is a bijection of
`[0, n)` onto itself. -/
theorem srcRowIndex_bijOn (nheads n : Nat) (h1 : 0 < nheads) (h2 : 0 < n)
    (h3 : n % (nheads * 2) = 0) :
    Set.BijOn (srcRowIndex (n / (nheads * 2))) (Set.Iio n) (Set.Iio n) := by
  obtain ⟨hhalf, hdvd⟩ := half_spec nheads n h1 h2 h3
  have hinv : Set.InvOn (dstRowIndex (n / (nheads * 2)))
      (srcRowIndex (n / (nheads * 2))) (Set.Iio n) (Set.Iio n) := by
    constructor
    · intro g _
      exact dstRowIndex_srcRowIndex _ hhalf g
    · intro i _
      exact srcRowIndex_dstRowIndex _ hhalf i
  refine hinv.bijOn ?_ ?_
  · intro g hg
    exact srcRowIndex_lt _ _ _ hhalf hdvd hg
  · intro i hi
    exact dstRowIndex_lt _ _ _ hhalf hdvd hi

theorem translateLayer_ok_spec (nheads : Nat) (L Lt : LayerWeights R)
    (h : translateLayer nheads L = Except.ok Lt) :
    permuteRows nheads L.q_weight = Except.ok Lt.q_weight ∧
    permuteRows nheads L.k_weight = Except.ok Lt.k_weight ∧
    Lt.v_weight = L.v_weight ∧
    Lt.o_weight = L.o_weight ∧
    Lt.gate_weight = L.gate_weight ∧
    Lt.up_weight = L.up_weight ∧
    Lt.down_weight = L.down_weight ∧
    Lt.input_norm_weight = L.input_norm_weight ∧
    Lt.post_attn_norm_weight = L.post_attn_norm_weight := by
  unfold translateLayer at h
  split at h
  next => exact absurd h (by simp)
  next q hq =>
    split at h
    next => exact absurd h (by simp)
    next k hk =>
      injection h with h
      subst h
      exact ⟨hq, hk, rfl, rfl, rfl, rfl, rfl, rfl, rfl⟩

theorem translateLayer_error_eq (nheads : Nat) (L : LayerWeights R)
    (e : TranslateError) (h : translateLayer nheads L = Except.error e) :
    e = TranslateError.ShapeMismatch := by
  unfold translateLayer at h
  split at h
  next e2 he =>
    injection h with h
    subst h
    exact permuteRows_error_eq _ _ _ he
  next =>
    split at h
    next e2 he =>
      injection h with h
      subst h
      exact permuteRows_error_eq _ _ _ he
    next => exact absurd h (by simp)

theorem translateLayer_error_of_bad (nheads : Nat) (L : LayerWeights R)
    (hbad : L.q_weight.length % (nheads * 2) ≠ 0 ∨
            L.k_weight.length % (nheads * 2) ≠ 0) :
    translateLayer nheads L = Except.error TranslateError.ShapeMismatch := by
  unfold translateLayer
  rcases hbad with hq | hk
  · rw [permuteRows_error nheads L.q_weight (by tauto)]
  · cases hpq : permuteRows nheads L.q_weight
    next e =>
      rw [permuteRows_error_eq _ _ _ hpq]
    next q =>
      rw [permuteRows_error nheads L.k_weight (by tauto)]

theorem translateLayer_roundtrip (nheads : Nat) (L Lt : LayerWeights R)
    (h : translateLayer nheads L = Except.ok Lt) :
    translateLayerBack nheads Lt = Except.ok L := by
  obtain ⟨hq, hk, hv, ho, hg, hu, hd, hin, hpost⟩ := translateLayer_ok_spec nheads L Lt h
  unfold translateLayerBack
  rw [permuteRows_roundtrip nheads L.q_weight Lt.q_weight hq,
    permuteRows_roundtrip nheads L.k_weight Lt.k_weight hk,
    hv, ho, hg, hu, hd, hin, hpost]

theorem translateLayers_ok_spec (nheads : Nat) (ls lt : List (LayerWeights R))
    (h : translateLayers nheads ls = Except.ok lt) :
    lt.length = ls.length ∧
    ∀ i : Nat, ∀ L Lt : LayerWeights R, ls[i]? = some L → lt[i]? = some Lt →
      translateLayer nheads L = Except.ok Lt := by
  induction ls generalizing lt with
  | nil =>
    unfold translateLayers at h
    injection h with h
    subst h
    exact ⟨rfl, fun i L Lt hL _ => by simp at hL⟩
  | cons L rest ih =>
    unfold translateLayers at h
    split at h
    next => exact absurd h (by simp)
    next Lt hL =>
      split at h
      next => exact absurd h (by simp)
      next restT hrest =>
        injection h with h
        subst h
        obtain ⟨hlen, hptw⟩ := ih restT hrest
        refine ⟨by simp [hlen], ?_⟩
        intro i L2 Lt2 hL2 hLt2
        match i with
        | 0 =>
          simp only [List.getElem?_cons_zero, Option.some_inj] at hL2 hLt2
          rw [← hL2, ← hLt2]
          exact hL
        | i + 1 =>
          simp only [List.getElem?_cons_succ] at hL2 hLt2
          exact hptw i L2 Lt2 hL2 hLt2

theorem translateLayers_roundtrip (nheads : Nat) (ls lt : List (LayerWeights R))
    (h : translateLayers nheads ls = Except.ok lt) :
    translateLayersBack nheads lt = Except.ok ls := by
  induction ls generalizing lt with
  | nil =>
    unfold translateLayers at h
    injection h with h
    subst h
    rfl
  | cons L rest ih =>
    unfold translateLayers at h
    split at h
    next => exact absurd h (by simp)
    next Lt hL =>
      split at h
      next => exact absurd h (by simp)
      next restT hrest =>
        injection h with h
        subst h
        unfold translateLayersBack
        rw [translateLayer_roundtrip nheads L Lt hL, ih restT hrest]

theorem translateLayers_error_of_bad (nheads : Nat) (ls : List (LayerWeights R))
    (hbad : ∃ L ∈ ls, L.q_weight.length % (nheads * 2) ≠ 0 ∨
                      L.k_weight.length % (nheads * 2) ≠ 0) :
    translateLayers nheads ls = Except.error TranslateError.ShapeMismatch := by
  induction ls with
  | nil =>
    obtain ⟨L, hL, _⟩ := hbad
    simp at hL
  | cons L rest ih =>
    obtain ⟨L2, hL2, hb⟩ := hbad
    unfold translateLayers
    rcases List.mem_cons.mp hL2 with he | hmem
    · subst he
      rw [translateLayer_error_of_bad nheads L2 hb]
    · cases hfirst : translateLayer nheads L
      next e =>
        rw [translateLayer_error_eq nheads L e hfirst]
      next Lt =>
        rw [ih ⟨L2, hmem, hb⟩]

theorem translate_ok_spec (nheads : Nat) (src out : ModelWeights R)
    (h : translate nheads src = Except.ok out) :
    translateLayers nheads src.layers = Except.ok out.layers ∧
    out.embedding_weight = src.embedding_weight ∧
    out.rot_emb_freqs = src.rot_emb_freqs ∧
    out.dec_norm_weight = src.dec_norm_weight ∧
    out.output_head_weight = src.output_head_weight := by
  unfold translate at h
  split at h
  next => exact absurd h (by simp)
  next layersT hls =>
    injection h with h
    subst h
    exact ⟨hls, rfl, rfl, rfl, rfl⟩

theorem translate_roundtrip (nheads : Nat) (src out : ModelWeights R)
    (h : translate nheads src = Except.ok out) :
    translateBack nheads out = Except.ok src := by
  obtain ⟨hls, hemb, hrot, hnorm, hhead⟩ := translate_ok_spec nheads src out h
  unfold translateBack
  rw [translateLayers_roundtrip nheads src.layers out.layers hls,
    hemb, hrot, hnorm, hhead]

theorem translateLayer_ok_of_wf (nheads : Nat) (L : LayerWeights R)
    (hq : 0 < nheads ∧ 0 < L.q_weight.length ∧
      L.q_weight.length % (nheads * 2) = 0)
    (hk : 0 < nheads ∧ 0 < L.k_weight.length ∧
      L.k_weight.length % (nheads * 2) = 0) :
    ∃ Lt, translateLayer nheads L = Except.ok Lt := by
  obtain ⟨q, hqo⟩ := permuteRows_of_guard nheads L.q_weight hq
  obtain ⟨k, hko⟩ := permuteRows_of_guard nheads L.k_weight hk
  unfold translateLayer
  rw [hqo, hko]
  exact ⟨_, rfl⟩

theorem translateLayers_ok_of_wf (nheads : Nat) (ls : List (LayerWeights R))
    (h1 : 0 < nheads)
    (hwf : ∀ L ∈ ls,
      (0 < L.q_weight.length ∧ L.q_weight.length % (nheads * 2) = 0) ∧
      (0 < L.k_weight.length ∧ L.k_weight.length % (nheads * 2) = 0)) :
    ∃ lt, translateLayers nheads ls = Except.ok lt := by
  induction ls with
  | nil => exact ⟨[], rfl⟩
  | cons L rest ih =>
    obtain ⟨hL, hrest⟩ := List.forall_mem_cons.mp hwf
    obtain ⟨Lt, hLt⟩ :=
      translateLayer_ok_of_wf nheads L ⟨h1, hL.1⟩ ⟨h1, hL.2⟩
    obtain ⟨restT, hrestT⟩ := ih hrest
    refine ⟨Lt :: restT, ?_⟩
    unfold translateLayers
    rw [hLt, hrestT]

theorem translate_ok_of_wf (nheads : Nat) (src : ModelWeights R)
    (h1 : 0 < nheads)
    (hwf : ∀ L ∈ src.layers,
      (0 < L.q_weight.length ∧ L.q_weight.length % (nheads * 2) = 0) ∧
      (0 < L.k_weight.length ∧ L.k_weight.length % (nheads * 2) = 0)) :
    ∃ out, translate nheads src = Except.ok out := by
  obtain ⟨lt, hlt⟩ := translateLayers_ok_of_wf nheads src.layers h1 hwf
  refine ⟨{ layers := lt
            embedding_weight := src.embedding_weight
            rot_emb_freqs := src.rot_emb_freqs
            dec_norm_weight := src.dec_norm_weight
            output_head_weight := src.output_head_weight }, ?_⟩
  unfold translate
  rw [hlt]

/-!
## Claims about the weight layout translator
-/

/-- Claim C1: for every transformer layer, the translation transforms the Q and K
projection weights by viewing the output (row) dimension as
`[nheads, head_dim/2, 2]`, transposing the last two axes and flattening: the
output rows are exactly the input rows read through `srcRowIndex` (so every
scalar value is preserved and only row order is permuted — the output is a
permutation of the input rows), and for fixed `nheads` and head dimension
the induced row-index maps are bijections on `[0, output_dim)`. -/
theorem claim_C1_qk_transform (nheads : Nat) (src out : ModelWeights R)
    (hok : translate nheads src = Except.ok out) (i : Nat)
    (L Lt : LayerWeights R) (hL : src.layers[i]? = some L)
    (hLt : out.layers[i]? = some Lt) :
    (Lt.q_weight.length = L.q_weight.length ∧
      (∀ g : Nat, g < L.q_weight.length →
        Lt.q_weight[g]? =
          L.q_weight[srcRowIndex (L.q_weight.length / (nheads * 2)) g]?) ∧
      Lt.q_weight.Perm L.q_weight ∧
      Set.BijOn (dstRowIndex (L.q_weight.length / (nheads * 2)))
        (Set.Iio L.q_weight.length) (Set.Iio L.q_weight.length) ∧
      Set.BijOn (srcRowIndex (L.q_weight.length / (nheads * 2)))
        (Set.Iio L.q_weight.length) (Set.Iio L.q_weight.length)) ∧
    (Lt.k_weight.length = L.k_weight.length ∧
      (∀ g : Nat, g < L.k_weight.length →
        Lt.k_weight[g]? =
          L.k_weight[srcRowIndex (L.k_weight.length / (nheads * 2)) g]?) ∧
      Lt.k_weight.Perm L.k_weight ∧
      Set.BijOn (dstRowIndex (L.k_weight.length / (nheads * 2)))
        (Set.Iio L.k_weight.length) (Set.Iio L.k_weight.length) ∧
      Set.BijOn (srcRowIndex (L.k_weight.length / (nheads * 2)))
        (Set.Iio L.k_weight.length) (Set.Iio L.k_weight.length)) := by
  obtain ⟨hls, -, -, -, -⟩ := translate_ok_spec nheads src out hok
  obtain ⟨-, hptw⟩ := translateLayers_ok_spec nheads src.layers out.layers hls
  obtain ⟨hq, hk, -⟩ :=
    translateLayer_ok_spec nheads L Lt (hptw i L Lt hL hLt)
  obtain ⟨hgq, hlenq, hgetq⟩ := permuteRows_ok_spec nheads L.q_weight Lt.q_weight hq
  obtain ⟨hgk, hlenk, hgetk⟩ := permuteRows_ok_spec nheads L.k_weight Lt.k_weight hk
  exact ⟨⟨hlenq, hgetq, permuteRows_perm _ _ _ hq,
      dstRowIndex_bijOn nheads _ hgq.1 hgq.2.1 hgq.2.2,
      srcRowIndex_bijOn nheads _ hgq.1 hgq.2.1 hgq.2.2⟩,
    ⟨hlenk, hgetk, permuteRows_perm _ _ _ hk,
      dstRowIndex_bijOn nheads _ hgk.1 hgk.2.1 hgk.2.2,
      srcRowIndex_bijOn nheads _ hgk.1 hgk.2.1 hgk.2.2⟩⟩

/-- Claim C2: for every well-formed `ModelWeights` and every `nheads` dividing the
head output dimension, translating and then translating back reproduces the
original weights exactly, bitwise (round-trip law). -/
theorem claim_C2_roundtrip (nheads : Nat) (src : ModelWeights R)
    (h1 : 0 < nheads)
    (hwf : ∀ L ∈ src.layers,
      (0 < L.q_weight.length ∧ L.q_weight.length % (nheads * 2) = 0) ∧
      (0 < L.k_weight.length ∧ L.k_weight.length % (nheads * 2) = 0)) :
    ∃ out, translate nheads src = Except.ok out ∧
      translateBack nheads out = Except.ok src := by
  obtain ⟨out, hout⟩ := translate_ok_of_wf nheads src h1 hwf
  exact ⟨out, hout, translate_roundtrip nheads src out hout⟩

/-- Claim C3: the translation leaves every tensor other than the Q and K
projection weights unchanged — per layer the V, O, gate/up/down MLP and both
layer-norm weights, and at model level the rotary frequency buffer, the
embedding, the final norm and the output head. -/
theorem claim_C3_frame (nheads : Nat) (src out : ModelWeights R)
    (hok : translate nheads src = Except.ok out) :
    out.embedding_weight = src.embedding_weight ∧
    out.rot_emb_freqs = src.rot_emb_freqs ∧
    out.dec_norm_weight = src.dec_norm_weight ∧
    out.output_head_weight = src.output_head_weight ∧
    out.layers.length = src.layers.length ∧
    ∀ i : Nat, ∀ L Lt : LayerWeights R,
      src.layers[i]? = some L → out.layers[i]? = some Lt →
      Lt.v_weight = L.v_weight ∧
      Lt.o_weight = L.o_weight ∧
      Lt.gate_weight = L.gate_weight ∧
      Lt.up_weight = L.up_weight ∧
      Lt.down_weight = L.down_weight ∧
      Lt.input_norm_weight = L.input_norm_weight ∧
      Lt.post_attn_norm_weight = L.post_attn_norm_weight := by
  obtain ⟨hls, hemb, hrot, hnorm, hhead⟩ := translate_ok_spec nheads src out hok
  obtain ⟨hlen, hptw⟩ := translateLayers_ok_spec nheads src.layers out.layers hls
  refine ⟨hemb, hrot, hnorm, hhead, hlen, ?_⟩
  intro i L Lt hL hLt
  obtain ⟨-, -, hrest⟩ := translateLayer_ok_spec nheads L Lt (hptw i L Lt hL hLt)
  exact hrest

/-- Claim C4: whenever some layer's Q or K projection weight has a row count that
`nheads` heads of even dimension cannot divide (for example 10 rows against
`nheads = 3`), the translation fails with `ShapeMismatch` and produces no
output at all — nothing is silently truncated or dropped. -/
theorem claim_C4_shape_mismatch (nheads : Nat) (src : ModelWeights R)
    (hbad : ∃ L ∈ src.layers,
      L.q_weight.length % (nheads * 2) ≠ 0 ∨
      L.k_weight.length % (nheads * 2) ≠ 0) :
    translate nheads src = Except.error TranslateError.ShapeMismatch ∧
    (∀ out, translate nheads src ≠ Except.ok out) ∧
    (∀ w : List R, w.length % (nheads * 2) ≠ 0 →
      permuteRows nheads w = Except.error TranslateError.ShapeMismatch) := by
  have herr : translate nheads src = Except.error TranslateError.ShapeMismatch := by
    unfold translate
    rw [translateLayers_error_of_bad nheads src.layers hbad]
  refine ⟨herr, ?_, ?_⟩
  · intro out hc
    rw [herr] at hc
    exact Except.noConfusion hc
  · intro w hw
    exact permuteRows_error nheads w (by tauto)

/-- Claim C5: when source and target disagree on the number of layers the
translation fails with `LayerCountMismatch`: the error is the entire result
(no prefix of the layers is translated, no partial recovery). -/
theorem claim_C5_layer_count_mismatch (nheads targetNLayers : Nat)
    (src : ModelWeights R) (hne : src.layers.length ≠ targetNLayers) :
    translateTo nheads targetNLayers src =
      Except.error TranslateError.LayerCountMismatch ∧
    ∀ out, translateTo nheads targetNLayers src ≠ Except.ok out := by
  have herr : translateTo nheads targetNLayers src =
      Except.error TranslateError.LayerCountMismatch := by
    unfold translateTo
    rw [if_neg hne]
  refine ⟨herr, ?_⟩
  intro out hc
  rw [herr] at hc
  exact Except.noConfusion hc

/-- Claim C6: for every layer of a well-formed input, the translated `q_weight`
and `k_weight` have exactly the same shape (row count; rows move whole, so
row widths are untouched) as the input ones, and the output rows are a
permutation of the input rows — no value is summed, rounded or dropped. -/
theorem claim_C6_shape_preservation (nheads : Nat) (src out : ModelWeights R)
    (hok : translate nheads src = Except.ok out) (i : Nat)
    (L Lt : LayerWeights R) (hL : src.layers[i]? = some L)
    (hLt : out.layers[i]? = some Lt) :
    Lt.q_weight.length = L.q_weight.length ∧
    Lt.k_weight.length = L.k_weight.length ∧
    Lt.q_weight.Perm L.q_weight ∧
    Lt.k_weight.Perm L.k_weight := by
  obtain ⟨hls, -, -, -, -⟩ := translate_ok_spec nheads src out hok
  obtain ⟨-, hptw⟩ := translateLayers_ok_spec nheads src.layers out.layers hls
  obtain ⟨hq, hk, -⟩ :=
    translateLayer_ok_spec nheads L Lt (hptw i L Lt hL hLt)
  exact ⟨(permuteRows_ok_spec nheads _ _ hq).2.1,
    (permuteRows_ok_spec nheads _ _ hk).2.1,
    permuteRows_perm _ _ _ hq, permuteRows_perm _ _ _ hk⟩

/-!
## Concrete example weights used by the witnesses

One layer, `nheads = 1`, head dimension 4 (`half = 2`): the permutation
sends rows `[r0, r1, r2, r3]` to `[r0, r2, r1, r3]`.
-/

def exLayer : LayerWeights Nat :=
  { q_weight := [0, 1, 2, 3]
    k_weight := [10, 11, 12, 13]
    v_weight := [20, 21]
    o_weight := [30]
    gate_weight := [40]
    up_weight := [50]
    down_weight := [60]
    input_norm_weight := [70]
    post_attn_norm_weight := [80] }

def exModel : ModelWeights Nat :=
  { layers := [exLayer]
    embedding_weight := [90]
    rot_emb_freqs := [91]
    dec_norm_weight := [92]
    output_head_weight := [93] }

def exLayerOut : LayerWeights Nat :=
  { q_weight := [0, 2, 1, 3]
    k_weight := [10, 12, 11, 13]
    v_weight := [20, 21]
    o_weight := [30]
    gate_weight := [40]
    up_weight := [50]
    down_weight := [60]
    input_norm_weight := [70]
    post_attn_norm_weight := [80] }

def exModelOut : ModelWeights Nat :=
  { layers := [exLayerOut]
    embedding_weight := [90]
    rot_emb_freqs := [91]
    dec_norm_weight := [92]
    output_head_weight := [93] }

def exLayerBad : LayerWeights Nat :=
  { q_weight := [0, 1, 2, 3, 4, 5, 6, 7, 8, 9]
    k_weight := [10, 11, 12, 13, 14, 15]
    v_weight := [20]
    o_weight := [30]
    gate_weight := [40]
    up_weight := [50]
    down_weight := [60]
    input_norm_weight := [70]
    post_attn_norm_weight := [80] }

def exModelBad : ModelWeights Nat :=
  { layers := [exLayerBad]
    embedding_weight := [90]
    rot_emb_freqs := [91]
    dec_norm_weight := [92]
    output_head_weight := [93] }

/-- Witness for C1 at `nheads = 1` on the concrete one-layer model. -/
theorem claim_C1_witness :
    (exLayerOut.q_weight.length = exLayer.q_weight.length ∧
      (∀ g : Nat, g < exLayer.q_weight.length →
        exLayerOut.q_weight[g]? =
          exLayer.q_weight[srcRowIndex (exLayer.q_weight.length / (1 * 2)) g]?) ∧
      exLayerOut.q_weight.Perm exLayer.q_weight ∧
      Set.BijOn (dstRowIndex (exLayer.q_weight.length / (1 * 2)))
        (Set.Iio exLayer.q_weight.length) (Set.Iio exLayer.q_weight.length) ∧
      Set.BijOn (srcRowIndex (exLayer.q_weight.length / (1 * 2)))
        (Set.Iio exLayer.q_weight.length) (Set.Iio exLayer.q_weight.length)) ∧
    (exLayerOut.k_weight.length = exLayer.k_weight.length ∧
      (∀ g : Nat, g < exLayer.k_weight.length →
        exLayerOut.k_weight[g]? =
          exLayer.k_weight[srcRowIndex (exLayer.k_weight.length / (1 * 2)) g]?) ∧
      exLayerOut.k_weight.Perm exLayer.k_weight ∧
      Set.BijOn (dstRowIndex (exLayer.k_weight.length / (1 * 2)))
        (Set.Iio exLayer.k_weight.length) (Set.Iio exLayer.k_weight.length) ∧
      Set.BijOn (srcRowIndex (exLayer.k_weight.length / (1 * 2)))
        (Set.Iio exLayer.k_weight.length) (Set.Iio exLayer.k_weight.length)) :=
  claim_C1_qk_transform 1 exModel exModelOut (by decide) 0 exLayer exLayerOut
    (by decide) (by decide)

/-- Witness for C2 at `nheads = 1` on the concrete one-layer model. -/
theorem claim_C2_witness :
    ∃ out, translate 1 exModel = Except.ok out ∧
      translateBack 1 out = Except.ok exModel :=
  claim_C2_roundtrip 1 exModel (by decide) (by decide)

/-- Witness for C3 on the concrete one-layer model. -/
theorem claim_C3_witness :
    exModelOut.embedding_weight = exModel.embedding_weight ∧
    exModelOut.rot_emb_freqs = exModel.rot_emb_freqs ∧
    exModelOut.dec_norm_weight = exModel.dec_norm_weight ∧
    exModelOut.output_head_weight = exModel.output_head_weight ∧
    exModelOut.layers.length = exModel.layers.length ∧
    ∀ i : Nat, ∀ L Lt : LayerWeights Nat,
      exModel.layers[i]? = some L → exModelOut.layers[i]? = some Lt →
      Lt.v_weight = L.v_weight ∧
      Lt.o_weight = L.o_weight ∧
      Lt.gate_weight = L.gate_weight ∧
      Lt.up_weight = L.up_weight ∧
      Lt.down_weight = L.down_weight ∧
      Lt.input_norm_weight = L.input_norm_weight ∧
      Lt.post_attn_norm_weight = L.post_attn_norm_weight :=
  claim_C3_frame 1 exModel exModelOut (by decide)

/-- Witness for C4: `nheads = 3` against a 10-row Q projection fails with
`ShapeMismatch`. -/
theorem claim_C4_witness :
    translate 3 exModelBad = Except.error TranslateError.ShapeMismatch ∧
    (∀ out, translate 3 exModelBad ≠ Except.ok out) ∧
    (∀ w : List Nat, w.length % (3 * 2) ≠ 0 →
      permuteRows 3 w = Except.error TranslateError.ShapeMismatch) :=
  claim_C4_shape_mismatch 3 exModelBad ⟨exLayerBad, by decide, Or.inl (by decide)⟩

/-- Witness for C5: a 1-layer source against a 2-layer target fails with
`LayerCountMismatch`. -/
theorem claim_C5_witness :
    translateTo 1 2 exModel = Except.error TranslateError.LayerCountMismatch ∧
    ∀ out, translateTo 1 2 exModel ≠ Except.ok out :=
  claim_C5_layer_count_mismatch 1 2 exModel (by decide)

/-- Witness for C6 on the concrete one-layer model. -/
theorem claim_C6_witness :
    exLayerOut.q_weight.length = exLayer.q_weight.length ∧
    exLayerOut.k_weight.length = exLayer.k_weight.length ∧
    exLayerOut.q_weight.Perm exLayer.q_weight ∧
    exLayerOut.k_weight.Perm exLayer.k_weight :=
  claim_C6_shape_preservation 1 exModel exModelOut (by decide) 0 exLayer
    exLayerOut (by decide) (by decide)

/-!
## Configuration conversion (`configuration_llama_hf.py`)

Python dictionaries are modelled as ordered association lists with
first-match lookup; Python attribute values as the dynamic `PyValue` type
(floating-point literals are carried opaquely as rationals — the conversion
only copies them, it never computes with them).
-/

/-- Python exception surfaced by the modelled code: `dict.pop` with a
missing key raises `KeyError`. -/
inductive PyError where
  | KeyError
  deriving DecidableEq

/-- Dynamic Python value: the configuration fields are ints, floats,
strings and booleans. -/
inductive PyValue where
  | int (n : Int)
  | num (q : ℚ)
  | str (s : String)
  | bool (b : Bool)
  deriving DecidableEq

/-- Python dictionary read `d[k]` (as an `Option`). -/
def dictGet {V : Type} (k : String) : List (String × V) → Option V
  | [] => none
  | kv :: rest => if kv.1 = k then some kv.2 else dictGet k rest

/-- The removal effect of Python `dict.pop(k)`. -/
def dictErase {V : Type} (k : String) : List (String × V) → List (String × V)
  | [] => []
  | kv :: rest => if kv.1 = k then dictErase k rest else kv :: dictErase k rest

/-- Python assignment `d[k] = v`: overwrite in place when the key exists,
append at the end otherwise. -/
def dictSet {V : Type} (k : String) (v : V) :
    List (String × V) → List (String × V)
  | [] => [(k, v)]
  | kv :: rest => if kv.1 = k then (k, v) :: rest else kv :: dictSet k v rest

/-- Dictionary read with a default value. -/
def dictGetD {V : Type} (k : String) (d : List (String × V)) (v0 : V) : V :=
  (dictGet k d).getD v0

theorem dictGet_erase_self {V : Type} (k : String) (d : List (String × V)) :
    dictGet k (dictErase k d) = none := by
  induction d with
  | nil => rfl
  | cons kv rest ih =>
    unfold dictErase
    by_cases hk : kv.1 = k
    · rw [if_pos hk]
      exact ih
    · rw [if_neg hk]
      unfold dictGet
      rw [if_neg hk]
      exact ih

theorem dictGet_set_ne {V : Type} (k k2 : String) (v : V)
    (d : List (String × V)) (hne : k2 ≠ k) :
    dictGet k (dictSet k2 v d) = dictGet k d := by
  induction d with
  | nil =>
    unfold dictSet dictGet
    rw [if_neg hne]
    rfl
  | cons kv rest ih =>
    unfold dictSet
    by_cases hk : kv.1 = k2
    · rw [if_pos hk]
      unfold dictGet
      rw [if_neg hne, if_neg (by rw [hk]; exact hne)]
    · rw [if_neg hk]
      unfold dictGet
      by_cases hk2 : kv.1 = k
      · rw [if_pos hk2, if_pos hk2]
      · rw [if_neg hk2, if_neg hk2]
        exact ih

/-- Modelled from the spec: the native `LLaMAConfig` (defined in
`fms/models/llama.py`, which is not part of `src/`) — the named
hyperparameters enumerated by the specification, with the field names the
conversion target `LLaMAHFConfig.__init__` expects, plus the `pad_id`
special-token field that `from_fms_config` renames. -/
structure LLaMAConfig where
  src_vocab_size : PyValue
  emb_dim : PyValue
  norm_eps : PyValue
  nheads : PyValue
  kvheads : PyValue
  nlayers : PyValue
  pad_id : PyValue
  hidden_grow_factor : PyValue
  multiple_of : PyValue
  activation_fn : PyValue
  p_dropout : PyValue
  max_expected_seq_len : PyValue
  use_cache : PyValue
  deriving DecidableEq

/-- Modelled from the spec: `LLaMAConfig.as_dict` (also in the missing
`fms/models/llama.py`) returns the configuration's dictionary form, keyed by
field name. -/
def LLaMAConfig.as_dict (c : LLaMAConfig) : List (String × PyValue) :=
  [("src_vocab_size", c.src_vocab_size),
   ("emb_dim", c.emb_dim),
   ("norm_eps", c.norm_eps),
   ("nheads", c.nheads),
   ("kvheads", c.kvheads),
   ("nlayers", c.nlayers),
   ("pad_id", c.pad_id),
   ("hidden_grow_factor", c.hidden_grow_factor),
   ("multiple_of", c.multiple_of),
   ("activation_fn", c.activation_fn),
   ("p_dropout", c.p_dropout),
   ("max_expected_seq_len", c.max_expected_seq_len),
   ("use_cache", c.use_cache)]

/-- The HF-side configuration: the attributes `LLaMAHFConfig.__init__`
stores (`configuration_llama_hf.py`, lines 30–48).  `pad_token_id`,
`eos_token_id`, `bos_token_id`, `is_decoder` and `tie_word_embeddings` are
stored by the `PretrainedConfig` base initialiser. -/
structure LLaMAHFConfig where
  src_vocab_size : PyValue
  emb_dim : PyValue
  norm_eps : PyValue
  nheads : PyValue
  kvheads : PyValue
  nlayers : PyValue
  hidden_grow_factor : PyValue
  multiple_of : PyValue
  activation_fn : PyValue
  p_dropout : PyValue
  max_expected_seq_len : PyValue
  use_cache : PyValue
  pad_token_id : PyValue
  eos_token_id : PyValue
  bos_token_id : PyValue
  is_decoder : PyValue
  tie_word_embeddings : PyValue
  deriving DecidableEq

/-- Constructor `LLaMAHFConfig.__init__` (lines 10–48): stores each named parameter and
calls the base initialiser with `tie_word_embeddings=False` unconditionally
("this is handled by the underlying model").  Extra keyword arguments
(`**kwargs`) are accepted but never forwarded to the base initialiser, so
they cannot influence any stored field.  The Python parameter defaults
(`src_vocab_size=32000`, `emb_dim=4096`, `norm_eps=1e-6`, `nheads=32`,
`kvheads=0`, `nlayers=32`, `pad_token_id=-1`, `hidden_grow_factor=8/3`,
`multiple_of=256.0`, `activation_fn="swish"`, `p_dropout=0.0`,
`max_expected_seq_len=2048`, `use_cache=True`, `eos_token_id=2`,
`bos_token_id=1`, `is_decoder=True`) are supplied by `from_dict` below. -/
def LLaMAHFConfig.init (src_vocab_size emb_dim norm_eps nheads kvheads
    nlayers pad_token_id hidden_grow_factor multiple_of activation_fn
    p_dropout max_expected_seq_len use_cache eos_token_id bos_token_id
    is_decoder : PyValue) (kwargs : List (String × PyValue)) :
    LLaMAHFConfig :=
  { src_vocab_size := src_vocab_size
    emb_dim := emb_dim
    norm_eps := norm_eps
    nheads := nheads
    kvheads := kvheads
    nlayers := nlayers
    hidden_grow_factor := hidden_grow_factor
    multiple_of := multiple_of
    activation_fn := activation_fn
    p_dropout := p_dropout
    max_expected_seq_len := max_expected_seq_len
    use_cache := use_cache
    pad_token_id := pad_token_id
    eos_token_id := eos_token_id
    bos_token_id := bos_token_id
    is_decoder := is_decoder
    tie_word_embeddings := PyValue.bool false }

/-- Modelled from the spec: `PretrainedConfig.from_dict` is external
(`transformers`) code — it instantiates the class with the dictionary
entries as keyword arguments, i.e. calls `__init__` with each named
parameter drawn from the dictionary when present and the Python default
otherwise; unmatched keys are passed through `**kwargs`. -/
def LLaMAHFConfig.from_dict (d : List (String × PyValue)) : LLaMAHFConfig :=
  LLaMAHFConfig.init
    (dictGetD "src_vocab_size" d (PyValue.int 32000))
    (dictGetD "emb_dim" d (PyValue.int 4096))
    (dictGetD "norm_eps" d (PyValue.num (1 / 1000000)))
    (dictGetD "nheads" d (PyValue.int 32))
    (dictGetD "kvheads" d (PyValue.int 0))
    (dictGetD "nlayers" d (PyValue.int 32))
    (dictGetD "pad_token_id" d (PyValue.int (-1)))
    (dictGetD "hidden_grow_factor" d (PyValue.num (8 / 3)))
    (dictGetD "multiple_of" d (PyValue.num 256))
    (dictGetD "activation_fn" d (PyValue.str "swish"))
    (dictGetD "p_dropout" d (PyValue.num 0))
    (dictGetD "max_expected_seq_len" d (PyValue.int 2048))
    (dictGetD "use_cache" d (PyValue.bool true))
    (dictGetD "eos_token_id" d (PyValue.int 2))
    (dictGetD "bos_token_id" d (PyValue.int 1))
    (dictGetD "is_decoder" d (PyValue.bool true))
    []

/-- Line 59 of `configuration_llama_hf.py`:
`config_dict["pad_token_id"] = config_dict.pop("pad_id")`.
`dict.pop` without a default raises `KeyError` when the key is absent;
otherwise the entry is removed and its value stored under
`"pad_token_id"`. -/
def popRenamePadId (config_dict : List (String × PyValue)) :
    Except PyError (List (String × PyValue)) :=
  match dictGet "pad_id" config_dict with
  | none => Except.error PyError.KeyError
  | some v =>
    Except.ok (dictSet "pad_token_id" v (dictErase "pad_id" config_dict))

/-- Method `LLaMAHFConfig.from_fms_config` (lines 56–60): take the source
configuration's dictionary form, rename `pad_id` to `pad_token_id`, and
build the HF configuration from the resulting dictionary. -/
def LLaMAHFConfig.from_fms_config (c : LLaMAConfig) :
    Except PyError LLaMAHFConfig :=
  match popRenamePadId c.as_dict with
  | Except.error e => Except.error e
  | Except.ok config_dict => Except.ok (LLaMAHFConfig.from_dict config_dict)

/-- Computation of `from_fms_config` on any source configuration: every
field is carried over unchanged, with `pad_id` landing in `pad_token_id`
and the HF-specific fields taking their `__init__` defaults. -/
theorem from_fms_config_eq (c : LLaMAConfig) :
    LLaMAHFConfig.from_fms_config c = Except.ok
      { src_vocab_size := c.src_vocab_size
        emb_dim := c.emb_dim
        norm_eps := c.norm_eps
        nheads := c.nheads
        kvheads := c.kvheads
        nlayers := c.nlayers
        hidden_grow_factor := c.hidden_grow_factor
        multiple_of := c.multiple_of
        activation_fn := c.activation_fn
        p_dropout := c.p_dropout
        max_expected_seq_len := c.max_expected_seq_len
        use_cache := c.use_cache
        pad_token_id := c.pad_id
        eos_token_id := PyValue.int 2
        bos_token_id := PyValue.int 1
        is_decoder := PyValue.bool true
        tie_word_embeddings := PyValue.bool false } := rfl

/-- Claim C7: `from_fms_config` performs field renames only — the result's
`pad_token_id` equals the source's `pad_id` and every other named
hyperparameter (vocabulary size, embedding dimension, both head counts,
layer count, normalization epsilon, growth factor, rounding multiple,
activation kind, dropout, max sequence length, cache flag) is carried over
with an unchanged value. -/
theorem claim_C7_config_field_renames (c : LLaMAConfig) (hf : LLaMAHFConfig)
    (h : LLaMAHFConfig.from_fms_config c = Except.ok hf) :
    hf.pad_token_id = c.pad_id ∧
    hf.src_vocab_size = c.src_vocab_size ∧
    hf.emb_dim = c.emb_dim ∧
    hf.norm_eps = c.norm_eps ∧
    hf.nheads = c.nheads ∧
    hf.kvheads = c.kvheads ∧
    hf.nlayers = c.nlayers ∧
    hf.hidden_grow_factor = c.hidden_grow_factor ∧
    hf.multiple_of = c.multiple_of ∧
    hf.activation_fn = c.activation_fn ∧
    hf.p_dropout = c.p_dropout ∧
    hf.max_expected_seq_len = c.max_expected_seq_len ∧
    hf.use_cache = c.use_cache := by
  rw [from_fms_config_eq] at h
  injection h with h
  subst h
  exact ⟨rfl, rfl, rfl, rfl, rfl, rfl, rfl, rfl, rfl, rfl, rfl, rfl, rfl⟩

def exFmsConfig : LLaMAConfig :=
  { src_vocab_size := PyValue.int 32000
    emb_dim := PyValue.int 128
    norm_eps := PyValue.num (1 / 100000)
    nheads := PyValue.int 4
    kvheads := PyValue.int 0
    nlayers := PyValue.int 2
    pad_id := PyValue.int 0
    hidden_grow_factor := PyValue.num (8 / 3)
    multiple_of := PyValue.num 256
    activation_fn := PyValue.str "swish"
    p_dropout := PyValue.num 0
    max_expected_seq_len := PyValue.int 2048
    use_cache := PyValue.bool true }

def exHFConfig : LLaMAHFConfig :=
  { src_vocab_size := PyValue.int 32000
    emb_dim := PyValue.int 128
    norm_eps := PyValue.num (1 / 100000)
    nheads := PyValue.int 4
    kvheads := PyValue.int 0
    nlayers := PyValue.int 2
    hidden_grow_factor := PyValue.num (8 / 3)
    multiple_of := PyValue.num 256
    activation_fn := PyValue.str "swish"
    p_dropout := PyValue.num 0
    max_expected_seq_len := PyValue.int 2048
    use_cache := PyValue.bool true
    pad_token_id := PyValue.int 0
    eos_token_id := PyValue.int 2
    bos_token_id := PyValue.int 1
    is_decoder := PyValue.bool true
    tie_word_embeddings := PyValue.bool false }

/-- Witness for C7 on a concrete source configuration. -/
theorem claim_C7_witness :
    exHFConfig.pad_token_id = exFmsConfig.pad_id ∧
    exHFConfig.src_vocab_size = exFmsConfig.src_vocab_size ∧
    exHFConfig.emb_dim = exFmsConfig.emb_dim ∧
    exHFConfig.norm_eps = exFmsConfig.norm_eps ∧
    exHFConfig.nheads = exFmsConfig.nheads ∧
    exHFConfig.kvheads = exFmsConfig.kvheads ∧
    exHFConfig.nlayers = exFmsConfig.nlayers ∧
    exHFConfig.hidden_grow_factor = exFmsConfig.hidden_grow_factor ∧
    exHFConfig.multiple_of = exFmsConfig.multiple_of ∧
    exHFConfig.activation_fn = exFmsConfig.activation_fn ∧
    exHFConfig.p_dropout = exFmsConfig.p_dropout ∧
    exHFConfig.max_expected_seq_len = exFmsConfig.max_expected_seq_len ∧
    exHFConfig.use_cache = exFmsConfig.use_cache :=
  claim_C7_config_field_renames exFmsConfig exHFConfig rfl

/-- Claim C8: every `LLaMAHFConfig` built through `__init__` has
`tie_word_embeddings = False`, whatever the arguments (including any
`**kwargs`): the constructor passes `tie_word_embeddings=False` to the base
initialiser unconditionally and never forwards `kwargs` to it. -/
theorem claim_C8_tie_word_embeddings_false
    (src_vocab_size emb_dim norm_eps nheads kvheads nlayers pad_token_id
      hidden_grow_factor multiple_of activation_fn p_dropout
      max_expected_seq_len use_cache eos_token_id bos_token_id
      is_decoder : PyValue) (kwargs : List (String × PyValue)) :
    (LLaMAHFConfig.init src_vocab_size emb_dim norm_eps nheads kvheads
      nlayers pad_token_id hidden_grow_factor multiple_of activation_fn
      p_dropout max_expected_seq_len use_cache eos_token_id bos_token_id
      is_decoder kwargs).tie_word_embeddings = PyValue.bool false := rfl

/-- Claim C9: the `pad_id` pop of `from_fms_config` raises `KeyError` exactly
when the dictionary form lacks the key `"pad_id"`, and on success the
resulting configuration dictionary no longer carries a `"pad_id"` entry;
`from_fms_config` is this pop/rename step followed by `from_dict`. -/
theorem claim_C9_pad_id_pop (d : List (String × PyValue)) :
    (dictGet "pad_id" d = none →
      popRenamePadId d = Except.error PyError.KeyError) ∧
    (∀ d2, popRenamePadId d = Except.ok d2 → dictGet "pad_id" d2 = none) ∧
    (∀ c : LLaMAConfig, LLaMAHFConfig.from_fms_config c =
      Except.map LLaMAHFConfig.from_dict (popRenamePadId c.as_dict)) := by
  refine ⟨?_, ?_, ?_⟩
  · intro hnone
    unfold popRenamePadId
    rw [hnone]
  · intro d2 hok
    unfold popRenamePadId at hok
    cases hget : dictGet "pad_id" d with
    | none => rw [hget] at hok; exact Except.noConfusion hok
    | some v =>
      rw [hget] at hok
      injection hok with hok
      rw [← hok, dictGet_set_ne _ _ _ _ (by decide), dictGet_erase_self]
  · intro c
    unfold LLaMAHFConfig.from_fms_config
    cases hpop : popRenamePadId c.as_dict <;> rfl

/-- Witness for C9 on a concrete dictionary lacking `"pad_id"`. -/
theorem claim_C9_witness :
    (dictGet "pad_id" [("activation_fn", PyValue.str "swish")] = none →
      popRenamePadId [("activation_fn", PyValue.str "swish")] =
        Except.error PyError.KeyError) ∧
    (∀ d2, popRenamePadId [("activation_fn", PyValue.str "swish")] =
        Except.ok d2 → dictGet "pad_id" d2 = none) ∧
    (∀ c : LLaMAConfig, LLaMAHFConfig.from_fms_config c =
      Except.map LLaMAHFConfig.from_dict (popRenamePadId c.as_dict)) :=
  claim_C9_pad_id_pop [("activation_fn", PyValue.str "swish")]

/-!
## `pad_prompt` (`scripts/inference.py`, lines 153–160)
-/

/-- Function `pad_prompt(prompt, pad_len, pad_token="<unk>")`: compute
`to_pad = pad_len - len(prompt)` (Python integer subtraction, so signed);
return the prompt unchanged when `to_pad == 0`, otherwise prepend
`[pad_id] * to_pad` where `pad_id = tokenizer.convert_tokens_to_ids(pad_token)`.
The external tokenizer is a function parameter; the prompt is a 1-D tensor
of token ids, modelled as a list of integers. -/
def pad_prompt (convert_tokens_to_ids : String → Int) (prompt : List Int)
    (pad_len : Nat) (pad_token : String) : List Int :=
  let to_pad : Int := (pad_len : Int) - (prompt.length : Int)
  if to_pad = 0 then prompt
  else
    let pad_id := convert_tokens_to_ids pad_token
    let pad_ids := List.replicate to_pad.toNat pad_id
    pad_ids ++ prompt

/-- Claim C10: for `len(prompt) ≤ pad_len`, `pad_prompt` returns a sequence of
length `pad_len` whose first `pad_len - len(prompt)` elements all equal the
id of `pad_token` and whose last `len(prompt)` elements equal the prompt;
when `len(prompt) == pad_len` the prompt is returned unchanged. -/
theorem claim_C10_pad_prompt (conv : String → Int) (prompt : List Int)
    (pad_len : Nat) (pad_token : String) (h : prompt.length ≤ pad_len) :
    (pad_prompt conv prompt pad_len pad_token).length = pad_len ∧
    (pad_prompt conv prompt pad_len pad_token).take (pad_len - prompt.length) =
      List.replicate (pad_len - prompt.length) (conv pad_token) ∧
    (pad_prompt conv prompt pad_len pad_token).drop (pad_len - prompt.length) =
      prompt ∧
    (prompt.length = pad_len →
      pad_prompt conv prompt pad_len pad_token = prompt) := by
  by_cases heq : ((pad_len : Int) - (prompt.length : Int) = 0)
  · have hpp : pad_prompt conv prompt pad_len pad_token = prompt := by
      unfold pad_prompt
      rw [if_pos heq]
    have hlen : prompt.length = pad_len := by omega
    have hzero : pad_len - prompt.length = 0 := by omega
    rw [hpp, hzero]
    refine ⟨hlen, ?_, ?_, fun _ => rfl⟩
    · rw [List.take_zero, List.replicate_zero]
    · rw [List.drop_zero]
  · have hlt : prompt.length < pad_len := by omega
    have htn : ((pad_len : Int) - (prompt.length : Int)).toNat =
        pad_len - prompt.length := by omega
    have hpp : pad_prompt conv prompt pad_len pad_token =
        List.replicate (pad_len - prompt.length) (conv pad_token) ++ prompt := by
      unfold pad_prompt
      rw [if_neg heq, htn]
    rw [hpp]
    refine ⟨?_, ?_, ?_, ?_⟩
    · rw [List.length_append, List.length_replicate]
      omega
    · generalize hl : List.replicate (pad_len - prompt.length)
        (conv pad_token) = l
      have hll : l.length = pad_len - prompt.length := by
        rw [← hl, List.length_replicate]
      rw [← hll, List.take_left]
    · generalize hl : List.replicate (pad_len - prompt.length)
        (conv pad_token) = l
      have hll : l.length = pad_len - prompt.length := by
        rw [← hl, List.length_replicate]
      rw [← hll, List.drop_left]
    · intro hc
      exact absurd hc (by omega)

/-- Witness for C10 with a two-token prompt padded to length 4. -/
theorem claim_C10_witness :
    (pad_prompt (fun _ => 7) [1, 2] 4 "<unk>").length = 4 ∧
    (pad_prompt (fun _ => 7) [1, 2] 4 "<unk>").take (4 - [1, 2].length) =
      List.replicate (4 - [1, 2].length) ((fun _ : String => (7 : Int)) "<unk>") ∧
    (pad_prompt (fun _ => 7) [1, 2] 4 "<unk>").drop (4 - [1, 2].length) =
      [1, 2] ∧
    ([1, 2].length = 4 → pad_prompt (fun _ => 7) [1, 2] 4 "<unk>" = [1, 2]) :=
  claim_C10_pad_prompt (fun _ => 7) [1, 2] 4 "<unk>" (by decide)

end FMSSpec
